import Mathlib

/-!
Shallow embedding of the calendar-assistant core of this repository
(`src/aiService.js`, `src/calendarHandler.js`, `src/app.js`) and proofs of
the frozen claims about it.

Modelling conventions:
- JavaScript `Date` values are modelled as natural numbers: milliseconds
  since the epoch in the single fixed ("Sydney") zone the code works in;
  daylight-saving shifts are outside this model.  One day is 86400000 ms.
- `Date.prototype.getDay` for epoch day `n` is `(n + 4) % 7` (day 0 of the
  epoch, 1970-01-01, was a Thursday, and JS numbers Sunday as 0).
- JavaScript string falsiness (`!s` true for `""`, `null`, `undefined`) is
  modelled explicitly on `Option String`.
- Fallible or absent JS values are `Option`; code that throws is modelled
  with explicit `Except`/result values, exactly as the handlers catch it.
-/

/-- Milliseconds in one day. -/
def msPerDay : Nat := 86400000

/-- Milliseconds in one hour. -/
def msPerHour : Nat := 3600000

/-- `setHours(0,0,0,0)`: midnight of the day the instant `t` falls in. -/
def startOfDayMs (t : Nat) : Nat := t / msPerDay * msPerDay

/-- `getDay()`: JS weekday (0 = Sunday … 6 = Saturday) of instant `t`. -/
def weekdayOf (t : Nat) : Nat := (t / msPerDay + 4) % 7

/-- `getHours()`: hour-of-day (local) of instant `t`. -/
def getHoursMs (t : Nat) : Nat := t % msPerDay / msPerHour

/-- `setHours(h)` with a single argument: replaces the hour of `t`, keeping
the date, minutes, seconds and milliseconds (JS normalises an overflowing
hour into the following day, which plain arithmetic models directly). -/
def setHoursOnly (t : Nat) (h : Nat) : Nat :=
  t / msPerDay * msPerDay + h * msPerHour + t % msPerHour

/-- JS `String.prototype.toLowerCase`, modelled characterwise (all tokens
the code compares against are ASCII). -/
def jsToLower (s : String) : String := ⟨s.data.map Char.toLower⟩

/-- JS truthiness of an optional string: `undefined`/`null` and `""` are
falsy, everything else truthy. -/
def jsTruthyStr : Option String → Bool
  | none => false
  | some s => !(s == "")

/-- `days.indexOf(dayName)` over the array
`['sunday','monday','tuesday','wednesday','thursday','friday','saturday']`
in `getNextDayOfWeek` (src/calendarHandler.js); `none` models `-1`. -/
def dayIndex (s : String) : Option Nat :=
  if s == "sunday" then some 0
  else if s == "monday" then some 1
  else if s == "tuesday" then some 2
  else if s == "wednesday" then some 3
  else if s == "thursday" then some 4
  else if s == "friday" then some 5
  else if s == "saturday" then some 6
  else none

/-- `getNextDayOfWeek(dayName, fromDate)` from src/calendarHandler.js.
`now` stands for `new Date()` (the current instant), used when `fromDate`
is null.  An invalid day name returns `fromDate || new Date()` unchanged;
otherwise the result is `startDate` plus `daysUntilTarget` days, where
`daysUntilTarget = targetDay - currentDay`, bumped by 7 when `<= 0`. -/
def getNextDayOfWeek (now : Nat) (dayName : String) (fromDate : Option Nat) : Nat :=
  match dayIndex (jsToLower dayName) with
  | none => fromDate.getD now
  | some targetDay =>
    let startDate := fromDate.getD now
    let currentDay := weekdayOf startDate
    let d : Int := (targetDay : Int) - (currentDay : Int)
    let d' : Int := if d ≤ 0 then d + 7 else d
    startDate + d'.toNat * msPerDay

/-- The offset formula as the specification states it: `(D - R) mod 7`,
replaced by 7 when that residue is zero.  (Spec-side definition, written
from the claim's words, to be compared with `getNextDayOfWeek`.) -/
def specNextOffset (targetDay refDay : Nat) : Nat :=
  let k := (((targetDay : Int) - (refDay : Int)) % 7).toNat
  if k = 0 then 7 else k

/-- Helper for `jsIncludes`: is `pat` an infix of the character list? -/
def jsIncludesL (pat : List Char) : List Char → Bool
  | [] => pat.isEmpty
  | c :: rest => List.isPrefixOf pat (c :: rest) || jsIncludesL pat rest

/-- JS `String.prototype.includes`. -/
def jsIncludes (s pat : String) : Bool := jsIncludesL pat.data s.data

/-- The relative-day token found by `parseDateTime`'s if/else-if chain
(src/aiService.js lines 296-314), in source order: `today`, `tomorrow`,
then `monday` … `saturday`, `sunday`. -/
inductive RelDay where
  | today
  | tomorrow
  | wkday (d : Nat)
  | unknown
deriving DecidableEq

/-- Whether a `RelDay` is a named weekday. -/
def RelDay.isWkday : RelDay → Bool
  | .wkday _ => true
  | _ => false

/-- First relative-day token contained in the lowercased input, in the
source's test order. -/
def relDay (lower : String) : RelDay :=
  if jsIncludes lower "today" then .today
  else if jsIncludes lower "tomorrow" then .tomorrow
  else if jsIncludes lower "monday" then .wkday 1
  else if jsIncludes lower "tuesday" then .wkday 2
  else if jsIncludes lower "wednesday" then .wkday 3
  else if jsIncludes lower "thursday" then .wkday 4
  else if jsIncludes lower "friday" then .wkday 5
  else if jsIncludes lower "saturday" then .wkday 6
  else if jsIncludes lower "sunday" then .wkday 0
  else .unknown

/-- The day-offset formula `((target + 7 - getDay()) % 7 || 7)` used by
every weekday branch of `parseDateTime` (the `sunday` branch's
`(7 - getDay()) % 7 || 7` is the `target = 0` instance). -/
def jsWeekOffset (target cur : Nat) : Nat :=
  let o := (target + 7 - cur) % 7
  if o = 0 then 7 else o

/-- Days added to start-of-today by `parseDateTime`'s relative-day chain. -/
def relDayOffset : RelDay → Nat → Nat
  | .today, _ => 0
  | .tomorrow, _ => 1
  | .wkday d, cur => jsWeekOffset d cur
  | .unknown, _ => 0

/-- The `next` modifier test:
`lowerStr.includes('next') && !lowerStr.includes('next week')`. -/
def nextAdjust (lower : String) : Bool :=
  jsIncludes lower "next" && !jsIncludes lower "next week"

/-- A match of the time regex `/(\d{1,2}):?(\d{2})?\s*(am|pm)?/i`:
1-2 digit hour, optional minutes, optional meridiem
(`some true` = pm, `some false` = am). -/
structure TimeMatch where
  hours : Nat
  minutes : Nat
  meridiem : Option Bool
deriving DecidableEq

/-- Numeric value of an ASCII digit character. -/
def digitVal (c : Char) : Nat := c.toNat - 48

/-- Greedy `\d{1,2}`: one or two leading digits and the rest. -/
def take12Digits : List Char → Option (Nat × List Char)
  | [] => none
  | c :: rest =>
    if c.isDigit then
      match rest with
      | d :: rest2 =>
        if d.isDigit then some (digitVal c * 10 + digitVal d, rest2)
        else some (digitVal c, rest)
      | [] => some (digitVal c, [])
    else none

/-- `(\d{2})?`: exactly two digits, or no consumption. -/
def take2Digits : List Char → Option (Nat × List Char)
  | c :: d :: rest =>
    if c.isDigit && d.isDigit then some (digitVal c * 10 + digitVal d, rest)
    else none
  | _ => none

/-- Greedy `\s*`. -/
def skipSpaces : List Char → List Char
  | [] => []
  | c :: rest => if c.isWhitespace then skipSpaces rest else c :: rest

/-- `(am|pm)?` case-insensitively at the current position. -/
def takeMeridiem : List Char → Option Bool
  | a :: m :: _ =>
    if a.toLower = 'a' && m.toLower = 'm' then some false
    else if a.toLower = 'p' && m.toLower = 'm' then some true
    else none
  | _ => none

/-- The time regex applied at a position known to start with a digit. -/
def matchTimeAt (l : List Char) : Option TimeMatch :=
  match take12Digits l with
  | none => none
  | some (h, rest) =>
    let rest1 := match rest with
      | ':' :: r => r
      | _ => rest
    match take2Digits rest1 with
    | some (m, rest2) => some ⟨h, m, takeMeridiem (skipSpaces rest2)⟩
    | none => some ⟨h, 0, takeMeridiem (skipSpaces rest1)⟩

/-- `timeToUse.match(/(\d{1,2}):?(\d{2})?\s*(am|pm)?/i)`: the regex's
first match, scanning left to right; a match starts exactly at the first
digit (the hour group is the only mandatory part). -/
def findTimeMatch : List Char → Option TimeMatch
  | [] => none
  | c :: rest => if c.isDigit then matchTimeAt (c :: rest) else findTimeMatch rest

/-- The two sequential meridiem adjustments:
`pm && hours < 12 → +12`, then `am && hours == 12 → 0`. -/
def adjustHour (h : Nat) (mer : Option Bool) : Nat :=
  match mer with
  | some true => if h < 12 then h + 12 else h
  | some false => if h = 12 then 0 else h
  | none => h

/-- `timeStr || dateTimeStr` (JS falsy-or on strings). -/
def jsOrStr (timeStr : Option String) (s : String) : String :=
  match timeStr with
  | none => s
  | some t => if t == "" then s else t

/-- The date part of `parseDateTime` (src/aiService.js lines 287-319):
start of today, shifted by the relative-day chain, plus 7 more days under
the `next` modifier. -/
def dayBase (now : Nat) (dateTimeStr : String) : Nat :=
  let lower := jsToLower dateTimeStr
  let b := startOfDayMs now + relDayOffset (relDay lower) (weekdayOf now) * msPerDay
  if nextAdjust lower then b + 7 * msPerDay else b

/-- `parseDateTime(dateTimeStr, timeStr)` from src/aiService.js.  `now` is
the instant `new Date()` read inside the function.  After the day is
resolved, `setHours(hours, minutes, 0, 0)` is applied only when the time
regex matches `timeStr || dateTimeStr`. -/
def parseDateTime (now : Nat) (dateTimeStr : String) (timeStr : Option String) : Nat :=
  let base := dayBase now dateTimeStr
  match findTimeMatch (jsOrStr timeStr dateTimeStr).data with
  | none => base
  | some tm =>
    startOfDayMs base + adjustHour tm.hours tm.meridiem * msPerHour + tm.minutes * 60000

/-- The weekday names, lowercased, as the spec and claims quantify over
them. -/
def weekdayNames : List String :=
  ["monday", "tuesday", "wednesday", "thursday", "friday", "saturday", "sunday"]

/-- A calendar event as the handlers consume it: the update/delete paths
use only `id` (the write target) and `summary` (logging/echo). -/
structure CalEvent where
  id : String
  summary : String
deriving DecidableEq

/-- A user record from the credential store (`getUserByPhone`); only the
`googleCalendarTokens` field matters to the calendar paths.  The token
payload itself is irrelevant here, so it is modelled as `Unit`. -/
structure User where
  googleCalendarTokens : Option Unit
deriving DecidableEq

/-- An operation result object as the handlers build them; absent JS
fields are the `Option` defaults. -/
structure OpResult where
  success : Bool
  events : Option (List CalEvent) := none
  count : Nat := 0
  error : Option String := none
  deletedEvent : Option CalEvent := none
deriving DecidableEq

/-- `read_events` parameters.  `date` is the parsed instant's epoch day of
the ISO date string the classifier supplies (`none` for an absent or empty,
hence falsy, field). -/
structure ReadParams where
  date : Option Nat := none
  specificDay : Option String := none
  dateRange : Option String := none
deriving DecidableEq

/-- `getCalendarEvents` from src/app.js (same guard in every version in
this repository): when the credential store has no record for the user or
the record has no calendar tokens it returns `null` without contacting the
provider; otherwise it performs the provider call, whose payload is the
abstract `providerItems`.  The `window` argument models the extra
`timeMin`/`timeMax` arguments the orchestrator passes (ignored by the
capability's in-repository signature).  Second component: whether the
provider was contacted. -/
def getCalendarEvents (user : Option User) (providerItems : List CalEvent)
    (window : Nat × Nat) : Option (List CalEvent) × Bool :=
  match user with
  | none => (none, false)
  | some u =>
    match u.googleCalendarTokens with
    | none => (none, false)
    | some _ => (some providerItems, true)

/-- The `[timeMin, timeMax]` computation of `handleReadEvents`
(src/calendarHandler.js lines 79-115): `date`, else truthy `specificDay`,
else `dateRange === 'week'`, else `dateRange === 'month'`, else today. -/
def computeReadWindow (p : ReadParams) (sydneyNow : Nat) : Nat × Nat :=
  match p.date with
  | some d => (d * msPerDay, d * msPerDay + (msPerDay - 1))
  | none =>
    if jsTruthyStr p.specificDay then
      let target := getNextDayOfWeek sydneyNow (p.specificDay.getD "") (some sydneyNow)
      (startOfDayMs target, startOfDayMs target + (msPerDay - 1))
    else if p.dateRange == some "week" then (sydneyNow, sydneyNow + 7 * msPerDay)
    else if p.dateRange == some "month" then (sydneyNow, sydneyNow + 30 * msPerDay)
    else (startOfDayMs sydneyNow, startOfDayMs sydneyNow + (msPerDay - 1))

/-- `handleReadEvents` (src/calendarHandler.js lines 74-137): computes the
window, calls the read capability, and wraps whatever comes back in
`success: true` with `count = events ? events.length : 0`.  Second
component: whether the calendar provider was contacted. -/
def handleReadEvents (p : ReadParams) (sydneyNow : Nat) (user : Option User)
    (providerItems : List CalEvent) : OpResult × Bool :=
  let window := computeReadWindow p sydneyNow
  let r := getCalendarEvents user providerItems window
  ({ success := true
     events := r.fst
     count := match r.fst with
       | some l => l.length
       | none => 0 }, r.snd)

/-- `create_event` parameters; `startDateTime`/`endDateTime` are the
parsed instants of the ISO strings (`none` for an absent or empty, hence
falsy, field). -/
structure CreateParams where
  summary : Option String := none
  location : Option String := none
  description : Option String := none
  startDateTime : Option Nat := none
  endDateTime : Option Nat := none
deriving DecidableEq

/-- The `eventDetails` record `handleCreateEvent` passes to the create
capability. -/
structure EventDetails where
  summary : String
  location : Option String
  description : Option String
  startDateTime : Nat
  endDateTime : Nat
deriving DecidableEq

/-- `x || undefined`: an empty (falsy) string becomes `undefined`. -/
def jsOrUndef : Option String → Option String
  | none => none
  | some s => if s == "" then none else some s

/-- `handleCreateEvent` (src/calendarHandler.js lines 142-189).
`capResult` is what the create capability returns when it is called.
Second component: the `eventDetails` passed to the capability, `none`
when validation fails before any external call. -/
def handleCreateEvent (p : CreateParams) (capResult : OpResult) :
    OpResult × Option EventDetails :=
  if !jsTruthyStr p.summary then
    ({ success := false, error := some "Event title is required" }, none)
  else if p.startDateTime = none then
    ({ success := false, error := some "Event start time is required" }, none)
  else
    let start := p.startDateTime.getD 0
    let endDT := match p.endDateTime with
      | some e => e
      | none => setHoursOnly start (getHoursMs start + 1)
    (capResult,
      some { summary := p.summary.getD ""
             location := jsOrUndef p.location
             description := jsOrUndef p.description
             startDateTime := start
             endDateTime := endDT })

/-- `handleUpdateEvent` (src/calendarHandler.js lines 194-233).  `matches`
is what `searchCalendarEvents` returns (`none` models a null return) and
`capResult` what `updateCalendarEvent` returns when called.  Second
component: the id of the event written, `none` when no write call is
made. -/
def handleUpdateEvent (searchQuery : Option String)
    (found : Option (List CalEvent)) (capResult : OpResult) :
    OpResult × Option String :=
  if !jsTruthyStr searchQuery then
    ({ success := false, error := some "Please specify which event to update" }, none)
  else
    match found with
    | none =>
      ({ success := false
         error := some ("No events found matching \"" ++ searchQuery.getD "" ++ "\"") }, none)
    | some [] =>
      ({ success := false
         error := some ("No events found matching \"" ++ searchQuery.getD "" ++ "\"") }, none)
    | some (e :: _) => (capResult, some e.id)

/-- `handleDeleteEvent` (src/calendarHandler.js lines 238-277); like
update, but echoes the deleted event's snapshot on success. -/
def handleDeleteEvent (searchQuery : Option String)
    (found : Option (List CalEvent)) (capResult : OpResult) :
    OpResult × Option String :=
  if !jsTruthyStr searchQuery then
    ({ success := false, error := some "Please specify which event to delete" }, none)
  else
    match found with
    | none =>
      ({ success := false
         error := some ("No events found matching \"" ++ searchQuery.getD "" ++ "\"") }, none)
    | some [] =>
      ({ success := false
         error := some ("No events found matching \"" ++ searchQuery.getD "" ++ "\"") }, none)
    | some (e :: _) =>
      (if capResult.success then { capResult with deletedEvent := some e } else capResult,
       some e.id)

/-- The classifier's return value; the catch branch of
`parseCalendarIntent` fills all three fields. -/
structure Intent where
  action : String
  parameters : List (String × String) := []
  error : Option String := none
deriving DecidableEq

/-- `parseCalendarIntent` (src/aiService.js lines 70-194).  `modelCall` is
the outcome of the language-model call chain (curl, library fallback, the
missing-key check and the 20 s timeout all throw into the same catch);
`jsonParse` is the platform `JSON.parse`, which throws (`Except.error`) on
malformed input.  The single try/catch converts any of these errors into
an `unknown` intent carrying `error.message`. -/
def parseCalendarIntent (modelCall : Except String String)
    (jsonParse : String → Except String Intent) : Intent :=
  match modelCall with
  | .error e => { action := "unknown", parameters := [], error := some e }
  | .ok content =>
    match jsonParse content.trim with
    | .error e => { action := "unknown", parameters := [], error := some e }
    | .ok parsed => parsed

/-- `x || '...'` with a string default. -/
def jsOrDefault (o : Option String) (d : String) : String :=
  match o with
  | none => d
  | some s => if s == "" then d else s

/-- The deterministic fallback chain in `generateResponse`'s catch branch
(src/aiService.js lines 263-277).  Note the first branch tests
`result.events` (truthiness: any array, even empty), not
`result.success`. -/
def fallbackResponse (action : String) (result : OpResult) : String :=
  if action == "read_events" && result.events.isSome then
    "Found " ++ toString (result.events.getD []).length ++ " event(s)."
  else if action == "create_event" && result.success then
    "✅ Event created successfully!"
  else if action == "update_event" && result.success then
    "✅ Event updated successfully!"
  else if action == "delete_event" && result.success then
    "✅ Event deleted successfully!"
  else
    jsOrDefault result.error "Something went wrong. Please try again."

/-- `generateResponse` (src/aiService.js lines 203-278): the primary
model call's trimmed text on success, the deterministic fallback on any
failure. -/
def generateResponse (modelCall : Except String String) (action : String)
    (result : OpResult) : String :=
  match modelCall with
  | .ok content => content.trim
  | .error _ => fallbackResponse action result

theorem dayIndex_lt_seven {s : String} {d : Nat} (h : dayIndex s = some d) : d < 7 := by
  unfold dayIndex at h
  repeat' split at h
  all_goals simp_all
  all_goals omega

theorem weekdayOf_lt_seven (t : Nat) : weekdayOf t < 7 := by
  unfold weekdayOf; omega

/-- C2: for every weekday name `d` (any capitalisation the code accepts,
i.e. `dayIndex d.toLower = some D`) and every reference instant `t`,
`getNextDayOfWeek` returns `t` plus `k` days where `k = (D - R) mod 7`
(`R` the weekday of `t`), with `k` replaced by 7 when that residue is
zero; hence `k ∈ [1,7]`, the result is strictly after `t`, and resolving
`d` on a day whose weekday is `d` yields exactly 7 days later. -/
theorem C2_weekday_resolution (name : String) (D now t : Nat)
    (h : dayIndex (jsToLower name) = some D) :
    getNextDayOfWeek now name (some t) = t + specNextOffset D (weekdayOf t) * msPerDay ∧
    1 ≤ specNextOffset D (weekdayOf t) ∧ specNextOffset D (weekdayOf t) ≤ 7 ∧
    t < getNextDayOfWeek now name (some t) ∧
    (weekdayOf t = D → getNextDayOfWeek now name (some t) = t + 7 * msPerDay) := by
  have hD := dayIndex_lt_seven h
  have hw := weekdayOf_lt_seven t
  simp only [getNextDayOfWeek, h, Option.getD_some, specNextOffset, msPerDay]
  refine ⟨?_, ?_, ?_, ?_, ?_⟩ <;> split_ifs <;> omega

/-- Witness for C2: asking for "Friday" on a Friday (epoch day 1,
1970-01-02) yields the instant exactly 7 days later. -/
theorem C2_weekday_resolution_witness :
    getNextDayOfWeek 0 "Friday" (some 86400000) = 86400000 + 7 * 86400000 :=
  (C2_weekday_resolution "Friday" 5 0 86400000 (by decide)).2.2.2.2 (by decide)

/-- C9: an input that is not a recognized day token makes
`getNextDayOfWeek` return the reference date unchanged; the function is
total, so no exception is possible (the unrecognized branch is the soft
default `return fromDate`). -/
theorem C9_unrecognized_day_soft_default (s : String)
    (h : dayIndex (jsToLower s) = none) (now r : Nat) :
    getNextDayOfWeek now s (some r) = r := by
  simp only [getNextDayOfWeek, h, Option.getD_some]

/-- Witness for C9: "christmas" is not a day token and resolves to the
reference date unchanged. -/
theorem C9_unrecognized_day_soft_default_witness :
    getNextDayOfWeek 12345 "christmas" (some 67890) = 67890 :=
  C9_unrecognized_day_soft_default "christmas" (by decide) 12345 67890

theorem jsWeekOffset_bounds (target cur : Nat) :
    1 ≤ jsWeekOffset target cur ∧ jsWeekOffset target cur ≤ 7 := by
  simp only [jsWeekOffset]
  split <;> omega

theorem findTimeMatch_of_no_digit {l : List Char}
    (h : l.all (fun c => !c.isDigit) = true) : findTimeMatch l = none := by
  induction l with
  | nil => rfl
  | cons c rest ih =>
    simp only [List.all_cons, Bool.and_eq_true, Bool.not_eq_true'] at h
    simp only [findTimeMatch, h.1, Bool.false_eq_true, if_false]
    exact ih (by simpa using h.2)

theorem dayBase_midnight (now : Nat) (s : String) : dayBase now s % msPerDay = 0 := by
  simp only [dayBase, startOfDayMs, msPerDay]
  split <;> omega

theorem parseDateTime_next_add (now : Nat) (s : String)
    (h1 : relDay (jsToLower ("next " ++ s)) = relDay (jsToLower s))
    (h2 : nextAdjust (jsToLower ("next " ++ s)) = true)
    (h3 : nextAdjust (jsToLower s) = false)
    (h4 : findTimeMatch ("next " ++ s).data = none)
    (h5 : findTimeMatch s.data = none) :
    parseDateTime now ("next " ++ s) none = parseDateTime now s none + 7 * msPerDay := by
  simp only [parseDateTime, jsOrStr, h4, h5, dayBase, h1, h2, h3, if_true,
    Bool.false_eq_true, if_false]

theorem parseDateTime_weekday_future (now : Nat) (s : String)
    (h5 : findTimeMatch s.data = none)
    (h6 : (relDay (jsToLower s)).isWkday = true) :
    now < parseDateTime now s none := by
  simp only [parseDateTime, jsOrStr, h5, dayBase]
  cases hrel : relDay (jsToLower s) with
  | wkday d =>
    have hb := jsWeekOffset_bounds d (weekdayOf now)
    simp only [relDayOffset]
    unfold startOfDayMs msPerDay
    unfold msPerDay at hb
    split <;> omega
  | today => rw [hrel] at h6; simp [RelDay.isWkday] at h6
  | tomorrow => rw [hrel] at h6; simp [RelDay.isWkday] at h6
  | unknown => rw [hrel] at h6; simp [RelDay.isWkday] at h6

/-- C8: for every weekday name `w`, resolving `"next " ++ w` from any
reference instant gives the date obtained by resolving `w` alone (itself
strictly after the reference instant) plus exactly 7 days. -/
theorem C8_next_weekday (now : Nat) (w : String) (hw : w ∈ weekdayNames) :
    parseDateTime now ("next " ++ w) none = parseDateTime now w none + 7 * msPerDay ∧
    now < parseDateTime now w none := by
  have hs : relDay (jsToLower ("next " ++ w)) = relDay (jsToLower w) ∧
      nextAdjust (jsToLower ("next " ++ w)) = true ∧
      nextAdjust (jsToLower w) = false ∧
      findTimeMatch ("next " ++ w).data = none ∧
      findTimeMatch w.data = none ∧
      (relDay (jsToLower w)).isWkday = true := by
    unfold weekdayNames at hw
    fin_cases hw <;> decide
  obtain ⟨h1, h2, h3, h4, h5, h6⟩ := hs
  exact ⟨parseDateTime_next_add now w h1 h2 h3 h4 h5,
    parseDateTime_weekday_future now w h5 h6⟩

/-- Witness for C8 at "friday" with reference instant 0 (a Thursday):
"friday" resolves to day 1 and "next friday" to day 8. -/
theorem C8_next_weekday_witness :
    parseDateTime 0 "next friday" none = parseDateTime 0 "friday" none + 7 * msPerDay ∧
    parseDateTime 0 "next friday" none = 8 * 86400000 ∧
    parseDateTime 0 "friday" none = 86400000 :=
  ⟨(C8_next_weekday 0 "friday" (by decide)).1, by decide, by decide⟩

/-- C10: when the effective time string `timeStr || dateTimeStr` contains
no decimal digit, the time regex cannot match, so `parseDateTime` returns
the resolved day (`dayBase`) at exactly local midnight; a time-of-day is
applied only when a digit sequence matches the pattern. -/
theorem C10_no_digit_gives_midnight (now : Nat) (s : String) (timeStr : Option String)
    (h : (jsOrStr timeStr s).data.all (fun c => !c.isDigit) = true) :
    parseDateTime now s timeStr = dayBase now s ∧
    parseDateTime now s timeStr % msPerDay = 0 := by
  have hm := findTimeMatch_of_no_digit h
  constructor
  · simp only [parseDateTime, hm]
  · simp only [parseDateTime, hm]
    exact dayBase_midnight now s

/-- Witness for C10: "tomorrow" (no digits, no separate time argument)
resolves to a midnight instant. -/
theorem C10_no_digit_gives_midnight_witness :
    parseDateTime 0 "tomorrow" none % msPerDay = 0 ∧
    parseDateTime 0 "tomorrow" none = 86400000 :=
  ⟨(C10_no_digit_gives_midnight 0 "tomorrow" none (by decide)).2, by decide⟩

theorem setHoursOnly_getHours_succ (t : Nat) :
    setHoursOnly t (getHoursMs t + 1) = t + msPerHour := by
  unfold setHoursOnly getHoursMs msPerHour msPerDay
  omega

/-- C1 counterexample: with no credential-store record for the user, the
Orchestrator's read handler returns `success := true` with null events and
count 0 — a success result, not a `success:false` NotLinkedFailure — so a
read_events intent for an unlinked user does yield a success result. -/
theorem C1_not_linked_counterexample :
    (handleReadEvents ⟨none, none, none⟩ 0 none []).fst =
      { success := true, events := none, count := 0 } ∧
    (handleReadEvents ⟨none, none, none⟩ 0 none []).snd = false := by
  decide

/-- C1 amended: when the credential store has no record or no calendar
tokens for the user, the read capability short-circuits — the calendar
provider is never contacted (second component `false`) — but the
Orchestrator does not produce a distinct not-linked failure: it returns
`success: true` with `events: null` and `count: 0`.  (The distinct
"not linked" message exists only in the webhook layer, upstream of the
Orchestrator.) -/
theorem C1_not_linked_amended (p : ReadParams) (now : Nat) (user : Option User)
    (provider : List CalEvent)
    (h : user = none ∨ user = some { googleCalendarTokens := none }) :
    handleReadEvents p now user provider =
      ({ success := true, events := none, count := 0 }, false) := by
  rcases h with h | h <;> subst h <;> rfl

/-- Witness for C1's amended statement at a concrete unlinked user. -/
theorem C1_not_linked_amended_witness :
    handleReadEvents ⟨none, some "friday", none⟩ 5 none [⟨"e1", "Dentist"⟩] =
      ({ success := true, events := none, count := 0 }, false) :=
  C1_not_linked_amended ⟨none, some "friday", none⟩ 5 none [⟨"e1", "Dentist"⟩]
    (Or.inl rfl)

/-- C3: if `summary` or `startDateTime` is missing, `handleCreateEvent`
fails locally (`success := false`) with no external call; if both are
present (a non-empty summary — presence is the code's truthiness test) and
`endDateTime` is absent, the event passed to the create capability takes
summary/location/description/startDateTime from the parameters and
`endDateTime = startDateTime + 1 hour` (via `setHours(getHours() + 1)`). -/
theorem C3_create_validation_and_default (p : CreateParams) (capResult : OpResult) :
    ((p.summary = none ∨ p.startDateTime = none) →
      (handleCreateEvent p capResult).fst.success = false ∧
      (handleCreateEvent p capResult).snd = none) ∧
    (∀ s st, p.summary = some s → s ≠ "" → p.startDateTime = some st →
      p.endDateTime = none →
      (handleCreateEvent p capResult).snd = some
        { summary := s
          location := jsOrUndef p.location
          description := jsOrUndef p.description
          startDateTime := st
          endDateTime := st + msPerHour }) := by
  constructor
  · intro h
    simp only [handleCreateEvent]
    split_ifs with h1 h2
    · exact ⟨rfl, rfl⟩
    · exact ⟨rfl, rfl⟩
    · exfalso
      rcases h with h | h
      · rw [h] at h1; simp [jsTruthyStr] at h1
      · exact h2 h
  · intro s st hs hs' hst hend
    simp only [handleCreateEvent, hs, hst, hend, jsTruthyStr]
    rw [if_neg (by simpa using hs'), if_neg (by simp)]
    simp [setHoursOnly_getHours_succ, Option.getD_some]

/-- Witness for C3: a fully absent parameter set fails without a call;
summary plus start only yields a passed event ending one hour later. -/
theorem C3_create_validation_and_default_witness :
    (handleCreateEvent ⟨none, none, none, none, none⟩ { success := true }).fst.success
        = false ∧
    (handleCreateEvent ⟨some "Meeting", none, none, some 1000, none⟩
        { success := true }).snd = some
      { summary := "Meeting", location := none, description := none
        startDateTime := 1000, endDateTime := 1000 + msPerHour } :=
  ⟨((C3_create_validation_and_default ⟨none, none, none, none, none⟩
      { success := true }).1 (Or.inl rfl)).1,
   (C3_create_validation_and_default ⟨some "Meeting", none, none, some 1000, none⟩
      { success := true }).2 "Meeting" 1000 rfl (by decide) rfl rfl⟩

/-- C4: for update/delete with a (truthy) searchQuery, zero matches give
`success := false` with the error string `No events found matching "q"` —
which contains the query — and no write call; with at least one match the
write call targets exactly the first match in the capability's listing
order. -/
theorem C4_search_miss_and_first_match (q : String) (hq : q ≠ "")
    (found : Option (List CalEvent)) (capU capD : OpResult) :
    ((found = none ∨ found = some []) →
      (handleUpdateEvent (some q) found capU).fst =
        { success := false, error := some ("No events found matching \"" ++ q ++ "\"") } ∧
      (handleUpdateEvent (some q) found capU).snd = none ∧
      (handleDeleteEvent (some q) found capD).fst =
        { success := false, error := some ("No events found matching \"" ++ q ++ "\"") } ∧
      (handleDeleteEvent (some q) found capD).snd = none ∧
      (∃ pre post, "No events found matching \"" ++ q ++ "\"" = pre ++ q ++ post)) ∧
    (∀ e rest, found = some (e :: rest) →
      (handleUpdateEvent (some q) found capU).snd = some e.id ∧
      (handleDeleteEvent (some q) found capD).snd = some e.id) := by
  have hq' : (q == "") = false := by simpa using hq
  constructor
  · intro h
    rcases h with h | h <;> subst h <;>
      simp only [handleUpdateEvent, handleDeleteEvent, jsTruthyStr, hq',
        Bool.not_false, Option.getD_some, if_true, Bool.not_true] <;>
      exact ⟨rfl, rfl, rfl, rfl, "No events found matching \"", "\"", rfl⟩
  · intro e rest h
    subst h
    simp only [handleUpdateEvent, handleDeleteEvent, jsTruthyStr, hq',
      Bool.not_false, if_true]
    exact ⟨rfl, rfl⟩

/-- Witness for C4: "dentist" matching nothing fails with the quoted
query and no write target; matching one event writes to its id only. -/
theorem C4_search_miss_and_first_match_witness :
    (handleUpdateEvent (some "dentist") none { success := true }).fst =
      { success := false, error := some "No events found matching \"dentist\"" } ∧
    (handleDeleteEvent (some "dentist") (some [⟨"id1", "Dentist"⟩, ⟨"id2", "Dentist 2"⟩])
        { success := true }).snd = some "id1" :=
  ⟨((C4_search_miss_and_first_match "dentist" (by decide) none
      { success := true } { success := true }).1 (Or.inl rfl)).1,
   ((C4_search_miss_and_first_match "dentist" (by decide)
      (some [⟨"id1", "Dentist"⟩, ⟨"id2", "Dentist 2"⟩])
      { success := true } { success := true }).2
      ⟨"id1", "Dentist"⟩ [⟨"id2", "Dentist 2"⟩] rfl).2⟩

/-- C5 counterexample: on a model-call timeout the classifier does not
return exactly the pair action "unknown" / empty parameters: the returned
object also carries the raw failure message in an `error` field. -/
theorem C5_extra_error_field_counterexample :
    parseCalendarIntent (Except.error "OpenAI API timeout after 20 seconds")
        (fun _ => Except.error "parse failure") ≠
      { action := "unknown", parameters := [], error := none } := by
  decide

/-- C5 amended: every model-call failure (including the missing-key check
and the timeout) and every JSON-parse failure makes the classifier return
action "unknown" with empty parameters — plus an `error` field carrying
the failure message.  Nothing is thrown past the classifier: both failure
shapes map to this plain return value. -/
theorem C5_failures_map_to_unknown (jsonParse : String → Except String Intent) :
    (∀ msg, parseCalendarIntent (Except.error msg) jsonParse =
      { action := "unknown", parameters := [], error := some msg }) ∧
    (∀ content msg, jsonParse content.trim = Except.error msg →
      parseCalendarIntent (Except.ok content) jsonParse =
        { action := "unknown", parameters := [], error := some msg }) := by
  constructor
  · intro msg; rfl
  · intro content msg h
    simp only [parseCalendarIntent, h]

/-- Witness for C5's amended statement: a malformed model output maps to
the unknown intent carrying the parse error. -/
theorem C5_failures_map_to_unknown_witness :
    parseCalendarIntent (Except.ok "not json")
        (fun _ => Except.error "Unexpected token") =
      { action := "unknown", parameters := [], error := some "Unexpected token" } :=
  (C5_failures_map_to_unknown (fun _ => Except.error "Unexpected token")).2
    "not json" "Unexpected token" rfl

/-- C6: the read window is computed with precedence
date > specificDay > dateRange week > dateRange month > default-today:
a given date (or the resolved specificDay) yields that day's
start-of-day/end-of-day window, week yields `[now, now + 7 days]`, month
yields `[now, now + 30 days]`, and absence of all three yields today's
start-of-day/end-of-day window. -/
theorem C6_read_window_precedence (p : ReadParams) (now : Nat) :
    (∀ d, p.date = some d →
      computeReadWindow p now = (d * msPerDay, d * msPerDay + (msPerDay - 1))) ∧
    (∀ s, p.date = none → p.specificDay = some s → s ≠ "" →
      computeReadWindow p now =
        (startOfDayMs (getNextDayOfWeek now s (some now)),
         startOfDayMs (getNextDayOfWeek now s (some now)) + (msPerDay - 1))) ∧
    (p.date = none → p.specificDay = none → p.dateRange = some "week" →
      computeReadWindow p now = (now, now + 7 * msPerDay)) ∧
    (p.date = none → p.specificDay = none → p.dateRange = some "month" →
      computeReadWindow p now = (now, now + 30 * msPerDay)) ∧
    (p.date = none → p.specificDay = none → p.dateRange = none →
      computeReadWindow p now = (startOfDayMs now, startOfDayMs now + (msPerDay - 1))) := by
  refine ⟨?_, ?_, ?_, ?_, ?_⟩
  · intro d hd
    simp only [computeReadWindow, hd]
  · intro s h1 h2 h3
    simp only [computeReadWindow, h1, h2, jsTruthyStr, Option.getD_some]
    rw [if_pos (by simpa using h3)]
  · intro h1 h2 h3
    simp only [computeReadWindow, h1, h2, h3, jsTruthyStr]
    rfl
  · intro h1 h2 h3
    simp only [computeReadWindow, h1, h2, h3, jsTruthyStr]
    rfl
  · intro h1 h2 h3
    simp only [computeReadWindow, h1, h2, h3, jsTruthyStr]
    rfl

/-- Witness for C6, one concrete instance per precedence branch. -/
theorem C6_read_window_precedence_witness :
    computeReadWindow ⟨some 3, some "friday", some "week"⟩ 999 =
      (3 * msPerDay, 3 * msPerDay + (msPerDay - 1)) ∧
    computeReadWindow ⟨none, some "friday", some "week"⟩ 0 =
      (startOfDayMs (getNextDayOfWeek 0 "friday" (some 0)),
       startOfDayMs (getNextDayOfWeek 0 "friday" (some 0)) + (msPerDay - 1)) ∧
    computeReadWindow ⟨none, none, some "week"⟩ 77 = (77, 77 + 7 * msPerDay) ∧
    computeReadWindow ⟨none, none, some "month"⟩ 77 = (77, 77 + 30 * msPerDay) ∧
    computeReadWindow ⟨none, none, none⟩ 99999999 =
      (startOfDayMs 99999999, startOfDayMs 99999999 + (msPerDay - 1)) :=
  ⟨(C6_read_window_precedence ⟨some 3, some "friday", some "week"⟩ 999).1 3 rfl,
   (C6_read_window_precedence ⟨none, some "friday", some "week"⟩ 0).2.1 "friday"
     rfl rfl (by decide),
   (C6_read_window_precedence ⟨none, none, some "week"⟩ 77).2.2.1 rfl rfl rfl,
   (C6_read_window_precedence ⟨none, none, some "month"⟩ 77).2.2.2.1 rfl rfl rfl,
   (C6_read_window_precedence ⟨none, none, none⟩ 99999999).2.2.2.2 rfl rfl rfl⟩

/-- C7 counterexample: a reachable read_events success — the unlinked-user
result, whose `events` field is null — makes the deterministic fallback
produce the generic something-went-wrong message, not "Found 0 event(s).":
the fallback is keyed on the presence of `result.events`, not on
`result.success`. -/
theorem C7_read_success_null_events_counterexample :
    (handleReadEvents ⟨none, none, none⟩ 0 none []).fst.success = true ∧
    generateResponse (Except.error "ModelError") "read_events"
        (handleReadEvents ⟨none, none, none⟩ 0 none []).fst =
      "Something went wrong. Please try again." ∧
    "Something went wrong. Please try again." ≠ "Found 0 event(s)." := by
  decide

/-- C7 amended: when the primary synthesis call fails, a read_events
result carrying an events array (even an empty one) yields
`Found {n} event(s).` with the array's length; create/update/delete
successes yield their fixed confirmation strings; a result with no events
array and `success:false` — and likewise a read_events success whose
events field is null — yields `result.error` when that is a non-empty
string and the generic something-went-wrong message otherwise. -/
theorem C7_fallback_template (action : String) (result : OpResult) (msg : String) :
    (∀ evs, action = "read_events" → result.events = some evs →
      generateResponse (Except.error msg) action result =
        "Found " ++ toString evs.length ++ " event(s).") ∧
    (action = "create_event" → result.success = true →
      generateResponse (Except.error msg) action result =
        "✅ Event created successfully!") ∧
    (action = "update_event" → result.success = true →
      generateResponse (Except.error msg) action result =
        "✅ Event updated successfully!") ∧
    (action = "delete_event" → result.success = true →
      generateResponse (Except.error msg) action result =
        "✅ Event deleted successfully!") ∧
    (result.events = none → result.success = false →
      generateResponse (Except.error msg) action result =
        jsOrDefault result.error "Something went wrong. Please try again.") ∧
    (action = "read_events" → result.success = true → result.events = none →
      generateResponse (Except.error msg) action result =
        jsOrDefault result.error "Something went wrong. Please try again.") := by
  refine ⟨?_, ?_, ?_, ?_, ?_, ?_⟩
  · intro evs ha he
    subst ha
    simp [generateResponse, fallbackResponse, he]
  · intro ha hs
    subst ha
    simp [generateResponse, fallbackResponse, hs]
  · intro ha hs
    subst ha
    simp [generateResponse, fallbackResponse, hs]
  · intro ha hs
    subst ha
    simp [generateResponse, fallbackResponse, hs]
  · intro he hs
    simp [generateResponse, fallbackResponse, he, hs]
  · intro ha hs he
    subst ha
    simp [generateResponse, fallbackResponse, he]

/-- Witness for C7's amended statement across the template's branches. -/
theorem C7_fallback_template_witness :
    generateResponse (Except.error "x") "read_events"
        { success := true, events := some [] } = "Found 0 event(s)." ∧
    generateResponse (Except.error "x") "create_event"
        { success := true } = "✅ Event created successfully!" ∧
    generateResponse (Except.error "x") "delete_event"
        { success := false, error := some "boom" } = "boom" :=
  ⟨(C7_fallback_template "read_events" { success := true, events := some [] } "x").1
      [] rfl rfl,
   (C7_fallback_template "create_event" { success := true } "x").2.1 rfl rfl,
   ((C7_fallback_template "delete_event" { success := false, error := some "boom" }
      "x").2.2.2.2.1 rfl rfl).trans (by decide)⟩
